import Mathlib

/-!
Verification of the metrics pipeline of the analytics Telegram-mini-app
backend (`src/main.py`).  Each Python function of interest is translated
into an executable Lean definition over `List Char` / `String`, and the
specification claims are proved (or refuted) about those definitions.

Modules covered:
* `extract_video_id` (main.py lines 249-271) — the identity extractor,
  including a direct model of the four `re.search` patterns used there;
* `get_all_recent_urls` (lines 138-157) — the recent-posts collector;
* `call_apify_actor` (lines 159-247) — dispatcher payloads and response
  handling;
* `add_log` / `get_logs` (lines 273-279, 545-547) — the log ring;
* `start_sync` (lines 441-480) and `apify_webhook_handler`
  (lines 482-543) — the sync trigger and the result reconciler.
-/

/-! ## Generic string helpers -/

/-- Python's substring test `needle in hay`, on character lists. -/
def listContainsSub (needle : List Char) : List Char → Bool
  | [] => needle.isEmpty
  | c :: t => needle.isPrefixOf (c :: t) || listContainsSub needle t

/-- Python's substring test `needle in hay` on strings. -/
def strContains (hay needle : String) : Bool :=
  listContainsSub needle.data hay.data

/-- Python's `str.lower()` (ASCII case folding, which is all URLs use). -/
def lowerStr (s : String) : String :=
  String.mk (s.data.map Char.toLower)

/-! ## The regular-expression searches of `extract_video_id`

Each Python `re.search(pat, url)` is modelled by a try-at-one-position
function plus a leftmost scan, exactly mirroring the leftmost-match,
ordered-alternation semantics of `re.search`.  The alternatives inside
each pattern start with pairwise distinct characters, so the ordered
`if`-chains below implement the backtracking behaviour exactly. -/

/-- Leftmost scan: the first position where `tryAt` matches wins. -/
def searchWith (tryAt : List Char → Option (List Char)) : List Char → Option (List Char)
  | [] => none
  | c :: t =>
    match tryAt (c :: t) with
    | some g => some g
    | none => searchWith tryAt t

/-- Character class `[0-9A-Za-z_-]` of the YouTube pattern. -/
def ytClassChar (c : Char) : Bool :=
  c.isAlphanum || c = '_' || c = '-'

/-- The `{11}` part of the YouTube pattern: exactly eleven class chars. -/
def ytTake11 (rest : List Char) : Option (List Char) :=
  let t := rest.take 11
  if t.length = 11 ∧ t.all ytClassChar then some t else none

/-- One position of `re.search(r"(?:v=|\/|be\/)([0-9A-Za-z_-]{11})", url)`. -/
def ytTryAt (cs : List Char) : Option (List Char) :=
  if ['v', '='].isPrefixOf cs then ytTake11 (cs.drop 2)
  else if ['/'].isPrefixOf cs then ytTake11 (cs.drop 1)
  else if ['b', 'e', '/'].isPrefixOf cs then ytTake11 (cs.drop 3)
  else none

/-- Character class `[A-Za-z0-9_-]` of the Instagram pattern. -/
def igClassChar (c : Char) : Bool :=
  c.isAlphanum || c = '_' || c = '-'

/-- One position of `re.search(r"/(?:p|reel|tv)/([A-Za-z0-9_-]+)", url)`. -/
def igTryAt (cs : List Char) : Option (List Char) :=
  if ['/'].isPrefixOf cs then
    let rest := cs.drop 1
    let after :=
      if ['p', '/'].isPrefixOf rest then some (rest.drop 2)
      else if ['r', 'e', 'e', 'l', '/'].isPrefixOf rest then some (rest.drop 5)
      else if ['t', 'v', '/'].isPrefixOf rest then some (rest.drop 3)
      else none
    match after with
    | none => none
    | some rest2 =>
      let g := rest2.takeWhile igClassChar
      if g.isEmpty then none else some g
  else none

/-- One position of `re.search(r"video/(\d+)", url)`. -/
def ttTryAt (cs : List Char) : Option (List Char) :=
  if ['v', 'i', 'd', 'e', 'o', '/'].isPrefixOf cs then
    let g := (cs.drop 6).takeWhile Char.isDigit
    if g.isEmpty then none else some g
  else none

/-- The `-?\d+_\d+` group of the VK pattern. -/
def vkNumPart (cs : List Char) : Option (List Char) :=
  let neg : List Char := if ['-'].isPrefixOf cs then ['-'] else []
  let rest := if ['-'].isPrefixOf cs then cs.drop 1 else cs
  let d1 := rest.takeWhile Char.isDigit
  if d1.isEmpty then none
  else
    let rest2 := rest.drop d1.length
    if ['_'].isPrefixOf rest2 then
      let d2 := (rest2.drop 1).takeWhile Char.isDigit
      if d2.isEmpty then none else some (neg ++ d1 ++ ['_'] ++ d2)
    else none

/-- One position of `re.search(r"(clip|video)(-?\d+_\d+)", url)`;
returns group 2 as the source does. -/
def vkTryAt (cs : List Char) : Option (List Char) :=
  if ['c', 'l', 'i', 'p'].isPrefixOf cs then vkNumPart (cs.drop 4)
  else if ['v', 'i', 'd', 'e', 'o'].isPrefixOf cs then vkNumPart (cs.drop 5)
  else none

/-! ## `extract_video_id` (main.py lines 249-271) -/

/-- Branch guard `"youtu" in url and yt_match` of line 254. -/
def ytBranchHit (url : String) : Bool :=
  strContains url ("youtu") && (searchWith ytTryAt url.data).isSome

/-- Branch guard `"instagram" in url and ig_match` of line 259. -/
def igBranchHit (url : String) : Bool :=
  strContains url ("instagram") && (searchWith igTryAt url.data).isSome

/-- Branch guard `"tiktok" in url and tt_match` of line 264. -/
def ttBranchHit (url : String) : Bool :=
  strContains url ("tiktok") && (searchWith ttTryAt url.data).isSome

/-- Branch guard `"vk.com" in url and vk_match` of line 268. -/
def vkBranchHit (url : String) : Bool :=
  strContains url ("vk.com") && (searchWith vkTryAt url.data).isSome

/-- `extract_video_id(url)`.  The argument is `Option String` because the
Python function is also called with `None`; `if not url: return None`
maps both `None` and `""` to the `none` sentinel. -/
def extract_video_id : Option String → Option String
  | none => none
  | some url =>
    if url = "" then none
    else if ytBranchHit url then some (String.mk ((searchWith ytTryAt url.data).getD []))
    else if igBranchHit url then some (String.mk ((searchWith igTryAt url.data).getD []))
    else if ttBranchHit url then some (String.mk ((searchWith ttTryAt url.data).getD []))
    else if vkBranchHit url then some (String.mk ((searchWith vkTryAt url.data).getD []))
    else some url

/-! ## The log ring `add_log` / `get_logs` (main.py lines 273-279, 545-547)

`main.py` line 14 is `from datetime import datetime, timedelta, timezone`,
so the module-level name `datetime` is bound to the *class*
`datetime.datetime`, not to the module.  Line 274 then evaluates
`datetime.datetime.now()`: an attribute access `datetime` on that class.
We model the attribute table of the class (it has `now`, `strftime`, … but
no attribute named `datetime`), so the access is an `AttributeError`. -/

/-- The attributes of the class `datetime.datetime` that `main.py` could
reach through the name `datetime` bound by its `from`-import. -/
def datetimeClassAttrs : List String :=
  [("now"), ("today"), ("utcnow"), ("fromtimestamp"), ("fromisoformat"),
   ("strftime"), ("strptime"), ("combine"), ("date"), ("time"),
   ("replace"), ("isoformat"), ("astimezone"), ("timestamp")]

/-- The Python error text raised by `datetime.datetime` under the
`from datetime import datetime` binding of line 14. -/
def datetimeAttrErr : String :=
  "AttributeError: type object datetime.datetime has no attribute datetime"

/-- Attribute lookup on the class bound to the name `datetime`. -/
def getattrOnDatetimeClass (a : String) : Except String String :=
  if datetimeClassAttrs.contains a then Except.ok a else Except.error datetimeAttrErr

/-- `add_log(message)` (lines 273-279).  `clock` stands for the value
`now().strftime("%H:%M:%S")` would produce, were the attribute access
that precedes it to succeed; `logs` is the `system_logs` global. -/
def add_log (clock message : String) (logs : List String) : Except String (List String) :=
  match getattrOnDatetimeClass ("datetime") with
  | Except.error e => Except.error e
  | Except.ok _ =>
    let entry := "[" ++ clock ++ "] " ++ message
    let logs2 := logs ++ [entry]
    Except.ok (if logs2.length > 30 then logs2.drop 1 else logs2)

/-- Sequencing of several `add_log` calls (propagating a raised error,
as Python would). -/
def add_log_many (clock : String) : List String → List String → Except String (List String)
  | [], logs => Except.ok logs
  | m :: rest, logs =>
    match add_log clock m logs with
    | Except.error e => Except.error e
    | Except.ok logs2 => add_log_many clock rest logs2

/-- `GET /sync/logs` (lines 545-547): returns the current `system_logs`. -/
def get_logs (logs : List String) : List String :=
  logs

/-! ## The recent-posts collector `get_all_recent_urls` (lines 138-157) -/

inductive Platform
  | instagram
  | tiktok
  | youtube
  | vk

deriving instance DecidableEq for Platform

/-- The key the collector uses for each platform in its result dict. -/
def platformKey : Platform → String
  | Platform.instagram => "instagram"
  | Platform.tiktok => "tiktok"
  | Platform.youtube => "youtube"
  | Platform.vk => "vk"

/-- The `if`/`elif` substring classification of lines 151-155, run on
`url.lower()`. -/
def classify (url : String) : Option Platform :=
  let low := lowerStr url
  if strContains low ("instagram") then some Platform.instagram
  else if strContains low ("tiktok") then some Platform.tiktok
  else if strContains low ("youtube") || strContains low ("youtu.be") then some Platform.youtube
  else if strContains low ("vk.com") then some Platform.vk
  else none

/-- The `grouped` dict of four Python sets (line 148).  A set is modelled
as a duplicate-free list; `addToBucket` is `set.add`. -/
structure GroupedUrls where
  instagram : List String
  tiktok : List String
  youtube : List String
  vk : List String

deriving instance DecidableEq for GroupedUrls

def emptyGrouped : GroupedUrls :=
  ⟨[], [], [], []⟩

/-- `set.add`: insert unless already present (exact-string dedup). -/
def addToBucket (b : List String) (u : String) : List String :=
  if u ∈ b then b else b ++ [u]

/-- Bucket accessor. -/
def bucketGet (g : GroupedUrls) : Platform → List String
  | Platform.instagram => g.instagram
  | Platform.tiktok => g.tiktok
  | Platform.youtube => g.youtube
  | Platform.vk => g.vk

/-- One loop iteration of lines 149-155: classify `url` (lower-cased
checks) and add the original `url` to the matching bucket, if any. -/
def classifyStep (g : GroupedUrls) (url : String) : GroupedUrls :=
  match classify url with
  | some Platform.instagram => { g with instagram := addToBucket g.instagram url }
  | some Platform.tiktok => { g with tiktok := addToBucket g.tiktok url }
  | some Platform.youtube => { g with youtube := addToBucket g.youtube url }
  | some Platform.vk => { g with vk := addToBucket g.vk url }
  | none => g

/-- The `grouped` value after the loop, for the fetched `post_url`s. -/
def groupOf (records : List String) : GroupedUrls :=
  records.foldl classifyStep emptyGrouped

/-- `get_all_recent_urls()` (lines 138-157), as a function of the
`post_url` column returned by the storage query.  Line 146 returns `{}`
when the query result is empty; line 157 keeps only non-empty buckets,
in the dict's insertion order. -/
def get_all_recent_urls (records : List String) : List (String × List String) :=
  if records = [] then []
  else
    (([(("instagram"), (groupOf records).instagram), (("tiktok"), (groupOf records).tiktok),
       (("youtube"), (groupOf records).youtube), (("vk"), (groupOf records).vk)] :
      List (String × List String))).filter (fun p => !p.2.isEmpty)

/-! ## The job dispatcher `call_apify_actor` (lines 159-247) -/

/-- The static `ACTORS` table (lines 27-32). -/
def ACTORS : List (String × String) :=
  [(("instagram"), ("apify/instagram-post-scraper")),
   (("tiktok"), ("clockworks/free-tiktok-scraper")),
   (("youtube"), ("streamers/youtube-scraper")),
   (("vk"), ("jupri/vkontakte"))]

/-- `ACTORS.get(platform)` (line 160). -/
def lookupActor (platform : String) : Option String :=
  (ACTORS.find? (fun p => p.1 == platform)).map (fun p => p.2)

/-- Python truthiness-filtering `a or b` on optional strings (both `None`
and `""` are falsy). -/
def orFalsy (a b : Option String) : Option String :=
  match a with
  | none => b
  | some s => if s = "" then b else some s

/-- The VK id list of lines 194-198: run the extractor on each URL and
keep only truthy results. -/
def vkQueryIds (urls : List String) : List String :=
  urls.foldl
    (fun acc u =>
      match extract_video_id (some u) with
      | none => acc
      | some v => if v = "" then acc else acc ++ [v])
    []

/-- The four per-platform `actor_input` payload shapes of lines 179-214,
with the source's field names. -/
inductive ActorInput
  | tiktokInput (postURLs : List String) (resultsPerPage : Nat)
      (shouldDownloadVideos shouldDownloadCovers : Bool)
  | instagramInput (resultsLimit : Nat) (skipPinnedPosts : Bool) (username : List String)
  | vkInput (query : List String) (search_mode : String) (limit : Nat)
      ( hd is_online with_photo dev_dataset_clear dev_no_strip : Bool)
  | defaultInput (startUrls : List String) (maxResults : Nat)

deriving instance DecidableEq for ActorInput

/-- The `actor_input` construction of lines 179-214. -/
def build_actor_input (platform : String) (urls : List String) : ActorInput :=
  if platform = "tiktok" then
    ActorInput.tiktokInput urls urls.length false false
  else if platform = "instagram" then
    ActorInput.instagramInput urls.length false urls
  else if platform = "vk" then
    let ids := vkQueryIds urls
    ActorInput.vkInput ids ("video") ids.length false false false false false
  else
    ActorInput.defaultInput urls urls.length

/-- The JSON body of a successful run-creation response, as far as
`start_sync` inspects it: a top-level `id`, and optionally a `data` key
whose object may carry an `id` (lines 468-469). -/
structure RunBody where
  id : Option String
  hasDataKey : Bool
  dataId : Option String

deriving instance DecidableEq for RunBody

/-- Outcome of the one `client.post` call of lines 229-235. -/
inductive NetOutcome
  | response (status : Nat) (body : RunBody)
  | exn (msg : String)

/-- The `{"error": ...}` payloads returned on lines 240 and 247. -/
inductive ApifyErr
  | statusCode (n : Nat)
  | connectionFailed

deriving instance DecidableEq for ApifyErr

/-- What `call_apify_actor` returns: `None` for an unknown platform, an
error dict, or the parsed success body. -/
inductive CallResult
  | errVal (e : ApifyErr)
  | okBody (body : RunBody)

deriving instance DecidableEq for CallResult

/-- `call_apify_actor(platform, urls, team_name)` (lines 159-247), with
the network interaction abstracted into the `net` outcome.  Non-2xx and
raised exceptions are converted to error dicts — never re-raised. -/
def call_apify_actor (platform : String) (urls : List String) (net : NetOutcome) :
    Option CallResult :=
  match lookupActor platform with
  | none => none
  | some _ =>
    let _input := build_actor_input platform urls
    match net with
    | NetOutcome.response status body =>
      if status = 200 ∨ status = 201 then some (CallResult.okBody body)
      else some (CallResult.errVal (ApifyErr.statusCode status))
    | NetOutcome.exn _ => some (CallResult.errVal ApifyErr.connectionFailed)

/-! ## The sync trigger `start_sync` (lines 441-480) -/

/-- Python error outcomes of a request handler: an `HTTPException`, or an
uncaught exception such as the `AttributeError` raised by `add_log`. -/
inductive PyErr
  | http (code : Nat)
  | attributeError (msg : String)

deriving instance DecidableEq for PyErr

/-- `f"Started (RunID: {run_id})"` needs Python's rendering of `None`. -/
def pyStrOpt : Option String → String
  | none => "None"
  | some s => s

/-- `run_data.get("id") or run_data.get("data", {}).get("id")` (line 469). -/
def runIdOf (body : RunBody) : Option String :=
  orFalsy body.id (if body.hasDataKey then body.dataId else none)

/-- Lines 468-472: the per-platform entry recorded in `launch_details`. -/
def runLaunchStatus (run_data : Option CallResult) : String :=
  match run_data with
  | some (CallResult.okBody body) =>
    if body.id.isSome || body.hasDataKey then
      "Started (RunID: " ++ pyStrOpt (runIdOf body) ++ ")"
    else "Failed to start (Check logs)"
  | some (CallResult.errVal _) => "Failed to start (Check logs)"
  | none => "Failed to start (Check logs)"

/-- The dispatch loop of lines 462-472, threading `system_logs` and
propagating any raised error (each iteration starts with `add_log`). -/
def syncLoop (clock : String) (net : String → NetOutcome) :
    List (String × List String) → List String → List (String × String) →
    Except String (List (String × String) × List String)
  | [], logs, launched => Except.ok (launched, logs)
  | (platform, urls) :: rest, logs, launched =>
    match add_log clock ("Запуск актора " ++ platform) logs with
    | Except.error e => Except.error e
    | Except.ok logs1 =>
      let run_data := call_apify_actor platform urls (net platform)
      syncLoop clock net rest logs1 (launched ++ [(platform, runLaunchStatus run_data)])

/-- The JSON object returned by `POST /sync/start`. -/
structure SyncResult where
  status : String
  message : Option String
  scope : Option String
  launched : List (String × String)
  counts : List (String × Nat)

deriving instance DecidableEq for SyncResult

/-- `start_sync` (lines 441-480).  `data_to_sync` is the collector
result, `net` the per-platform network outcome of each dispatch. -/
def start_sync (clock userId adminId : String) (logs : List String)
    (data_to_sync : List (String × List String)) (net : String → NetOutcome) :
    Except PyErr (SyncResult × List String) :=
  if userId ≠ adminId then Except.error (PyErr.http 403)
  else
    match add_log clock ("Запуск синхронизации...") logs with
    | Except.error e => Except.error (PyErr.attributeError e)
    | Except.ok logs1 =>
      if data_to_sync = [] then
        match add_log clock ("⚠️ Ссылок для обновления не найдено") logs1 with
        | Except.error e => Except.error (PyErr.attributeError e)
        | Except.ok logs2 =>
          Except.ok (⟨("empty"), some ("Нет новых ссылок в базе за последние 7 дней"),
            none, [], []⟩, logs2)
      else
        match syncLoop clock net data_to_sync logs1 [] with
        | Except.error e => Except.error (PyErr.attributeError e)
        | Except.ok (launched, logs2) =>
          match add_log clock ("✅ Все запросы в Apify отправлены") logs2 with
          | Except.error e => Except.error (PyErr.attributeError e)
          | Except.ok logs3 =>
            Except.ok (⟨("processing"), none, some ("all_teams"), launched,
              data_to_sync.map (fun p => (p.1, p.2.length))⟩, logs3)

/-! ## The result reconciler `apify_webhook_handler` (lines 482-543) -/

/-- A stored `analytics` row (the PostRecord of the spec). -/
structure Row where
  id : Nat
  post_url : String
  user_id : Int
  team : String
  likes : Int
  views : Int
  added_at : String

deriving instance DecidableEq for Row

/-- The JSON value found under a result item's `likes` key: either a flat
integer or a nested object with an optional `count` field (the two shapes
lines 516-523 distinguish with `isinstance(raw_likes, dict)`). -/
inductive LikesField
  | asInt (n : Int)
  | asObj (count : Option Int)

deriving instance DecidableEq for LikesField

/-- One result item, restricted to the keys the handler probes. -/
structure Item where
  url : Option String
  direct_url : Option String
  webVideoUrl : Option String
  inputUrl : Option String
  player : Option String
  likes : Option LikesField
  likesCount : Option Int
  diggCount : Option Int
  views : Option Int
  videoPlayCount : Option Int
  viewCount : Option Int
  playCount : Option Int

deriving instance DecidableEq for Item

/-- An item with every probed key absent. -/
def emptyItem : Item :=
  ⟨none, none, none, none, none, none, none, none, none, none, none, none⟩

/-- The likes extraction of lines 516-523. -/
def extractLikes (item : Item) : Int :=
  match item.likes with
  | some (LikesField.asObj c) => c.getD 0
  | some (LikesField.asInt n) => n
  | none =>
    match item.likesCount with
    | some n => n
    | none =>
      match item.diggCount with
      | some n => n
      | none => 0

/-- The views extraction of lines 526-530. -/
def extractViews (item : Item) : Int :=
  match item.views with
  | some n => n
  | none =>
    match item.videoPlayCount with
    | some n => n
    | none =>
      match item.viewCount with
      | some n => n
      | none =>
        match item.playCount with
        | some n => n
        | none => 0

/-- Line 509: `item.get("url") or item.get("direct_url") or ...` —
Python's `or` skips falsy values (`None` and `""`). -/
def pickUrl (item : Item) : Option String :=
  orFalsy item.url (orFalsy item.direct_url (orFalsy item.webVideoUrl
    (orFalsy item.inputUrl item.player)))

/-- Line 510: `vid_id = extract_video_id(raw_url)`. -/
def itemVid (item : Item) : Option String :=
  match pickUrl item with
  | none => none
  | some u => extract_video_id (some u)

/-- `extract_video_id` on a (non-empty) stored `post_url`; used as the
dict key on line 495. -/
def extractTok (s : String) : String :=
  match extract_video_id (some s) with
  | some t => t
  | none => s

/-- The `video_to_row_map` dict comprehension of lines 494-497, as its
lookup function: the id of the *last* row whose truthy `post_url`
extracts to the key (later comprehension entries overwrite earlier). -/
def video_to_row_map (rows : List Row) (k : String) : Option Nat :=
  rows.foldl
    (fun acc r => if r.post_url ≠ "" ∧ extractTok r.post_url = k then some r.id else acc)
    none

/-- The `update(...).eq('id', row_id)` of lines 533-536: set `likes` and
`views` on every row whose `id` matches. -/
def updateRowVals (l v : Int) (rid : Nat) (rows : List Row) : List Row :=
  rows.map (fun r => if r.id = rid then { r with likes := l, views := v } else r)

/-- One iteration of the item loop (lines 507-540) against the current
storage state, with `lookup` the pre-built `video_to_row_map`. -/
def applyItem (lookup : String → Option Nat) (rows : List Row) (item : Item) : List Row :=
  match itemVid item with
  | none => rows
  | some k =>
    match lookup k with
    | none => rows
    | some rid => updateRowVals (extractLikes item) (extractViews item) rid rows

/-- The reconciler's per-item update pass (lines 491-540): build the join
map from the fetched rows, then fold the result items over storage. -/
def reconcilePass (rows : List Row) (items : List Item) : List Row :=
  items.foldl (applyItem (video_to_row_map rows)) rows

/-- The status object plus resulting state of `POST /webhooks/apify`. -/
structure WebhookResult where
  status : String
  rows : List Row
  logs : List String

deriving instance DecidableEq for WebhookResult

/-- `apify_webhook_handler` (lines 482-543).  `rows` is the `analytics`
table, `fetchStatus`/`fetchItems` the dataset-items response. -/
def apify_webhook_handler (clock platform : String) (logs : List String)
    (rows : List Row) (fetchStatus : Nat) (fetchItems : List Item) :
    Except PyErr WebhookResult :=
  match add_log clock ("📥 Вебхук получен: " ++ platform) logs with
  | Except.error e => Except.error (PyErr.attributeError e)
  | Except.ok logs1 =>
    if fetchStatus ≠ 200 then Except.ok ⟨("error"), rows, logs1⟩
    else
      let rows2 := reconcilePass rows fetchItems
      match add_log clock ("✨ Обновлено " ++ platform) logs1 with
      | Except.error e => Except.error (PyErr.attributeError e)
      | Except.ok logs2 => Except.ok ⟨("success"), rows2, logs2⟩


/-! ## Reconciler analysis: the pass as a per-row overwrite

`reconcilePass` only ever rewrites the `likes`/`views` fields of rows
whose `id` is targeted by some item; the lemmas below expose it as a
`List.map` of a per-row overwrite so that idempotence and the frame
property follow. -/

/-- The effect of one item on one row (the body of `updateRowVals`,
guarded by the lookups of `applyItem`). -/
def applyItemRow (lookup : String → Option Nat) (item : Item) (r : Row) : Row :=
  match itemVid item with
  | none => r
  | some k =>
    match lookup k with
    | none => r
    | some rid => if r.id = rid then { r with likes := extractLikes item, views := extractViews item } else r

/-- Whether `item` targets the row id `rid`, and with which values. -/
def itemHits (lookup : String → Option Nat) (item : Item) (rid : Nat) : Option (Int × Int) :=
  match itemVid item with
  | none => none
  | some k =>
    match lookup k with
    | none => none
    | some rid2 => if rid2 = rid then some (extractLikes item, extractViews item) else none

/-- The last item of `items` that targets `rid`, with its values. -/
def hitVal (lookup : String → Option Nat) (items : List Item) (rid : Nat) : Option (Int × Int) :=
  items.foldr
    (fun item acc =>
      match acc with
      | some lv => some lv
      | none => itemHits lookup item rid)
    none

/-- Overwrite a row according to the hit table. -/
def applyHit (hv : Nat → Option (Int × Int)) (r : Row) : Row :=
  match hv r.id with
  | none => r
  | some lv => { r with likes := lv.1, views := lv.2 }

lemma applyItem_eq_map (lookup : String → Option Nat) (rows : List Row) (item : Item) :
    applyItem lookup rows item = rows.map (applyItemRow lookup item) := by
  unfold applyItem applyItemRow updateRowVals
  cases hv : itemVid item with
  | none => simp [hv]
  | some k =>
    cases hl : lookup k with
    | none => simp [hv, hl]
    | some rid => simp [hv, hl]

lemma applyItemRow_frame (lookup : String → Option Nat) (item : Item)
    (rid : Nat) (purl : String) (uid : Int) (tm : String) (lk vw : Int) (ad : String) :
    ∃ lk2 vw2, applyItemRow lookup item ⟨rid, purl, uid, tm, lk, vw, ad⟩ =
      ⟨rid, purl, uid, tm, lk2, vw2, ad⟩ := by
  cases hv : itemVid item with
  | none => exact ⟨lk, vw, by simp [applyItemRow, hv]⟩
  | some k =>
    cases hl : lookup k with
    | none => exact ⟨lk, vw, by simp [applyItemRow, hv, hl]⟩
    | some rid0 =>
      by_cases h : rid = rid0
      · exact ⟨extractLikes item, extractViews item, by simp [applyItemRow, hv, hl, h]⟩
      · exact ⟨lk, vw, by simp [applyItemRow, hv, hl, h]⟩

lemma applyHit_id (hv : Nat → Option (Int × Int)) (r : Row) :
    (applyHit hv r).id = r.id := by
  unfold applyHit
  cases h : hv r.id with
  | none => rfl
  | some lv => rfl

lemma applyHit_post_url (hv : Nat → Option (Int × Int)) (r : Row) :
    (applyHit hv r).post_url = r.post_url := by
  unfold applyHit
  cases h : hv r.id with
  | none => rfl
  | some lv => rfl

lemma applyHit_user_id (hv : Nat → Option (Int × Int)) (r : Row) :
    (applyHit hv r).user_id = r.user_id := by
  unfold applyHit
  cases h : hv r.id with
  | none => rfl
  | some lv => rfl

lemma applyHit_team (hv : Nat → Option (Int × Int)) (r : Row) :
    (applyHit hv r).team = r.team := by
  unfold applyHit
  cases h : hv r.id with
  | none => rfl
  | some lv => rfl

lemma applyHit_added_at (hv : Nat → Option (Int × Int)) (r : Row) :
    (applyHit hv r).added_at = r.added_at := by
  unfold applyHit
  cases h : hv r.id with
  | none => rfl
  | some lv => rfl

lemma applyHit_of_none (hv : Nat → Option (Int × Int)) (r : Row) (h : hv r.id = none) :
    applyHit hv r = r := by
  unfold applyHit
  rw [h]

lemma hitVal_cons (lookup : String → Option Nat) (item : Item) (rest : List Item) (rid : Nat) :
    hitVal lookup (item :: rest) rid =
      (match hitVal lookup rest rid with
       | some lv => some lv
       | none => itemHits lookup item rid) :=
  rfl

lemma applyHit_step (lookup : String → Option Nat) (item : Item) (rest : List Item) (r : Row) :
    applyHit (hitVal lookup rest) (applyItemRow lookup item r) =
      applyHit (hitVal lookup (item :: rest)) r := by
  obtain ⟨rid, purl, uid, tm, lk, vw, ad⟩ := r
  cases hrest : hitVal lookup rest rid with
  | some lv =>
    obtain ⟨lk2, vw2, hrow⟩ := applyItemRow_frame lookup item rid purl uid tm lk vw ad
    rw [hrow]
    unfold applyHit
    simp [hitVal_cons, hrest]
  | none =>
    have hright : applyHit (hitVal lookup (item :: rest)) (Row.mk rid purl uid tm lk vw ad) =
        applyHit (itemHits lookup item) (Row.mk rid purl uid tm lk vw ad) := by
      unfold applyHit
      simp [hitVal_cons, hrest]
    rw [hright]
    unfold applyHit applyItemRow itemHits
    cases hv : itemVid item with
    | none => simp [hv, hrest]
    | some k =>
      cases hl : lookup k with
      | none => simp [hv, hl, hrest]
      | some rid0 =>
        by_cases h : rid = rid0
        · subst h
          simp [hv, hl, hrest]
        · have h2 : ¬ rid0 = rid := fun hh => h hh.symm
          simp [hv, hl, h, h2, hrest]

lemma foldl_applyItem (lookup : String → Option Nat) (items : List Item) :
    ∀ rows : List Row,
      items.foldl (applyItem lookup) rows = rows.map (applyHit (hitVal lookup items)) := by
  induction items with
  | nil =>
    intro rows
    have h : applyHit (hitVal lookup []) = fun r => r := by
      funext r
      exact applyHit_of_none _ _ rfl
    simp [h]
  | cons item rest ih =>
    intro rows
    rw [List.foldl_cons, ih, applyItem_eq_map, List.map_map]
    have h : (applyHit (hitVal lookup rest) ∘ applyItemRow lookup item) =
        applyHit (hitVal lookup (item :: rest)) := by
      funext r
      exact applyHit_step lookup item rest r
    rw [h]

lemma reconcilePass_eq_map (rows : List Row) (items : List Item) :
    reconcilePass rows items =
      rows.map (applyHit (hitVal (video_to_row_map rows) items)) := by
  unfold reconcilePass
  exact foldl_applyItem _ items rows

lemma video_to_row_map_invariant (hv : Nat → Option (Int × Int)) (rows : List Row) :
    video_to_row_map (rows.map (applyHit hv)) = video_to_row_map rows := by
  funext k
  unfold video_to_row_map
  have aux : ∀ (l : List Row) (acc : Option Nat),
      (l.map (applyHit hv)).foldl
        (fun acc r => if r.post_url ≠ "" ∧ extractTok r.post_url = k then some r.id else acc) acc =
      l.foldl
        (fun acc r => if r.post_url ≠ "" ∧ extractTok r.post_url = k then some r.id else acc) acc := by
    intro l
    induction l with
    | nil => intro acc; rfl
    | cons r t ih =>
      intro acc
      simp only [List.map_cons, List.foldl_cons, applyHit_post_url, applyHit_id]
      exact ih _
  exact aux rows none

lemma applyHit_idem (hv : Nat → Option (Int × Int)) (r : Row) :
    applyHit hv (applyHit hv r) = applyHit hv r := by
  obtain ⟨rid, purl, uid, tm, lk, vw, ad⟩ := r
  unfold applyHit
  cases h : hv rid with
  | none => simp [h]
  | some lv => simp [h]

/-! ## Claim theorems -/

/-- Claim C1: the claim says appending 35 messages leaves exactly the
last 30 timestamped entries and that no append raises.  In the source,
`add_log` evaluates `datetime.datetime.now()` under the binding
`from datetime import datetime` (line 14), so every append raises
`AttributeError` before touching `system_logs`: the first conjunct shows
a single append always raises, the second that any non-empty append
sequence (in particular one of 35 messages) raises instead of producing
the 30-entry ring. -/
theorem add_log_always_raises :
    (∀ clock message logs, add_log clock message logs = Except.error datetimeAttrErr) ∧
    (∀ clock m msgs logs, add_log_many clock (m :: msgs) logs = Except.error datetimeAttrErr) := by
  constructor
  · intro clock message logs
    rfl
  · intro clock m msgs logs
    rfl

/-- Claim C2: reconciliation is idempotent — running the per-item update
pass (lines 491-540) twice over the same items leaves every stored row
(in particular its `likes`/`views` fields) exactly as after one run. -/
theorem reconciler_idempotent (rows : List Row) (items : List Item) :
    reconcilePass (reconcilePass rows items) items = reconcilePass rows items := by
  have h1 : reconcilePass rows items =
      rows.map (applyHit (hitVal (video_to_row_map rows) items)) :=
    reconcilePass_eq_map rows items
  have h2 : video_to_row_map (reconcilePass rows items) = video_to_row_map rows := by
    rw [h1]
    exact video_to_row_map_invariant _ rows
  rw [reconcilePass_eq_map (reconcilePass rows items) items, h2, h1, List.map_map]
  have hAA : applyHit (hitVal (video_to_row_map rows) items) ∘
      applyHit (hitVal (video_to_row_map rows) items) =
      applyHit (hitVal (video_to_row_map rows) items) :=
    funext fun r => applyHit_idem _ r
  rw [hAA]

/-- Claim C3: the input/output contract of `extract_video_id` — the five
documented example URLs, the null sentinel for `None`/empty input, and
the identity fallback for any non-empty URL on which no platform branch
(marker substring plus regex match) fires. -/
theorem extract_video_id_contract :
    extract_video_id (some ("https://youtu.be/dQw4w9WgXcQ")) = some ("dQw4w9WgXcQ") ∧
    extract_video_id (some ("https://www.instagram.com/p/ABC123/")) = some ("ABC123") ∧
    extract_video_id (some ("https://www.tiktok.com/@u/video/7123456789")) = some ("7123456789") ∧
    extract_video_id (some ("https://vk.com/clip-123_456")) = some ("-123_456") ∧
    extract_video_id (some ("https://example.com/x")) = some ("https://example.com/x") ∧
    extract_video_id none = none ∧
    extract_video_id (some ("")) = none ∧
    (∀ url : String, url ≠ "" → ytBranchHit url = false → igBranchHit url = false →
      ttBranchHit url = false → vkBranchHit url = false →
      extract_video_id (some url) = some url) := by
  refine ⟨by decide, by decide, by decide, by decide, by decide, rfl, rfl, ?_⟩
  intro url hne hyt hig htt hvk
  simp [extract_video_id, hne, hyt, hig, htt, hvk]

/-- Claim C3 witness: the fallback clause applied at a concrete
unrecognized URL. -/
theorem extract_video_id_contract_witness :
    extract_video_id (some ("https://t.me/somechannel")) = some ("https://t.me/somechannel") :=
  extract_video_id_contract.2.2.2.2.2.2.2 ("https://t.me/somechannel")
    (by decide) (by decide) (by decide) (by decide) (by decide)

/-- Claim C6: the claim says a failed platform dispatch is recorded as a
per-platform failure marker while other platforms still dispatch.  In the
source, `start_sync` calls `add_log` (line 450, and again inside the
dispatch loop) which always raises `AttributeError` (see C1), so for any
authorized caller the handler raises before performing any dispatch and
never records any `launched` entry. -/
theorem start_sync_raises_before_dispatch (clock adminId : String) (logs : List String)
    (data_to_sync : List (String × List String)) (net : String → NetOutcome) :
    start_sync clock adminId adminId logs data_to_sync net =
      Except.error (PyErr.attributeError datetimeAttrErr) := by
  unfold start_sync
  rw [if_neg (fun h => h rfl)]
  rfl

/-- Claim C7: the claim says the webhook handler returns an error status
on a failed item fetch and a success status otherwise.  In the source the
handler's first statement is `add_log` (line 486), which always raises
`AttributeError` (see C1), so every webhook invocation raises before
fetching items or touching any row. -/
theorem webhook_handler_always_raises (clock platform : String) (logs : List String)
    (rows : List Row) (fetchStatus : Nat) (fetchItems : List Item) :
    apify_webhook_handler clock platform logs rows fetchStatus fetchItems =
      Except.error (PyErr.attributeError datetimeAttrErr) :=
  rfl

/-- Claim C9: the reconciler pass only ever changes `likes`/`views`:
every surviving row keeps its `id`, `post_url`, `user_id`, `team` and
`added_at`, and a row targeted by no item is entirely unchanged. -/
theorem reconciler_frame (rows : List Row) (items : List Item) (i : Nat) (r : Row)
    (h : rows[i]? = some r) :
    ∃ r2, (reconcilePass rows items)[i]? = some r2 ∧
      r2.id = r.id ∧ r2.post_url = r.post_url ∧ r2.user_id = r.user_id ∧
      r2.team = r.team ∧ r2.added_at = r.added_at ∧
      (hitVal (video_to_row_map rows) items r.id = none → r2 = r) := by
  rw [reconcilePass_eq_map, List.getElem?_map, h]
  exact ⟨applyHit (hitVal (video_to_row_map rows) items) r, rfl,
    applyHit_id _ r, applyHit_post_url _ r, applyHit_user_id _ r,
    applyHit_team _ r, applyHit_added_at _ r,
    fun hn => applyHit_of_none _ r hn⟩

/-- Claim C9 witness: the frame theorem applied to a concrete one-row
state with an empty item list. -/
theorem reconciler_frame_witness :
    ∃ r2, (reconcilePass [(⟨1, ("https://youtu.be/dQw4w9WgXcQ"), 5, ("t"), 0, 0, ("d")⟩ : Row)] [])[0]? =
        some r2 ∧
      r2.id = 1 ∧ r2.post_url = ("https://youtu.be/dQw4w9WgXcQ") ∧ r2.user_id = 5 ∧
      r2.team = ("t") ∧ r2.added_at = ("d") ∧
      (hitVal (video_to_row_map [(⟨1, ("https://youtu.be/dQw4w9WgXcQ"), 5, ("t"), 0, 0, ("d")⟩ : Row)]) [] 1 = none →
        r2 = ⟨1, ("https://youtu.be/dQw4w9WgXcQ"), 5, ("t"), 0, 0, ("d")⟩) :=
  reconciler_frame [⟨1, ("https://youtu.be/dQw4w9WgXcQ"), 5, ("t"), 0, 0, ("d")⟩] [] 0
    ⟨1, ("https://youtu.be/dQw4w9WgXcQ"), 5, ("t"), 0, 0, ("d")⟩ rfl

/-- Claim C10: the collector classifies on the lower-cased URL while
`extract_video_id` checks its platform markers case-sensitively, so an
upper-case-host VK URL is bucketed as `vk` by the collector yet falls
through to the identity fallback in the extractor (returning the whole
URL, not the `-123_456` token its lower-case twin yields). -/
theorem collector_extractor_case_mismatch :
    classify ("https://VK.com/clip-123_456") = some Platform.vk ∧
    extract_video_id (some ("https://VK.com/clip-123_456")) =
      some ("https://VK.com/clip-123_456") ∧
    strContains ("https://VK.com/clip-123_456") ("vk.com") = false ∧
    strContains (lowerStr ("https://VK.com/clip-123_456")) ("vk.com") = true ∧
    extract_video_id (some ("https://vk.com/clip-123_456")) = some ("-123_456") :=
  ⟨by decide, by decide, by decide, by decide, by decide⟩


/-! ## Collector analysis (for claim C4) -/

lemma mem_addToBucket (b : List String) (v u : String) :
    u ∈ addToBucket b v ↔ u ∈ b ∨ u = v := by
  unfold addToBucket
  by_cases h : v ∈ b
  · rw [if_pos h]
    constructor
    · exact Or.inl
    · rintro (hu | hu)
      · exact hu
      · exact hu ▸ h
  · rw [if_neg h]
    simp [List.mem_append]

lemma nodup_addToBucket (b : List String) (v : String) (hb : b.Nodup) :
    (addToBucket b v).Nodup := by
  unfold addToBucket
  by_cases h : v ∈ b
  · rw [if_pos h]
    exact hb
  · rw [if_neg h]
    simp [List.nodup_append, h, hb]

lemma bucketGet_empty (p : Platform) : bucketGet emptyGrouped p = [] := by
  cases p <;> rfl

lemma mem_bucketGet_classifyStep (g : GroupedUrls) (a u : String) (p : Platform) :
    u ∈ bucketGet (classifyStep g a) p ↔
      u ∈ bucketGet g p ∨ (u = a ∧ classify a = some p) := by
  unfold classifyStep
  cases hc : classify a with
  | none => simp [hc]
  | some q => cases q <;> cases p <;> simp [hc, bucketGet, mem_addToBucket]

lemma nodup_bucketGet_classifyStep (g : GroupedUrls) (a : String)
    (hg : ∀ p, (bucketGet g p).Nodup) (p : Platform) :
    (bucketGet (classifyStep g a) p).Nodup := by
  unfold classifyStep
  cases hc : classify a with
  | none => exact hg p
  | some q =>
    cases q <;> cases p <;> simp only [bucketGet] <;>
      first
      | exact nodup_addToBucket _ _ (hg Platform.instagram)
      | exact nodup_addToBucket _ _ (hg Platform.tiktok)
      | exact nodup_addToBucket _ _ (hg Platform.youtube)
      | exact nodup_addToBucket _ _ (hg Platform.vk)
      | exact hg Platform.instagram
      | exact hg Platform.tiktok
      | exact hg Platform.youtube
      | exact hg Platform.vk

lemma mem_bucket_foldl (l : List String) :
    ∀ (g : GroupedUrls) (u : String) (p : Platform),
      u ∈ bucketGet (l.foldl classifyStep g) p → u ∈ bucketGet g p ∨ classify u = some p := by
  induction l with
  | nil =>
    intro g u p h
    exact Or.inl h
  | cons a t ih =>
    intro g u p h
    rw [List.foldl_cons] at h
    rcases ih (classifyStep g a) u p h with h2 | h2
    · rcases (mem_bucketGet_classifyStep g a u p).mp h2 with h3 | h3
      · exact Or.inl h3
      · refine Or.inr ?_
        rw [h3.1]
        exact h3.2
    · exact Or.inr h2

lemma nodup_bucket_foldl (l : List String) :
    ∀ (g : GroupedUrls), (∀ p, (bucketGet g p).Nodup) →
      ∀ p, (bucketGet (l.foldl classifyStep g) p).Nodup := by
  induction l with
  | nil =>
    intro g hg
    exact hg
  | cons a t ih =>
    intro g hg
    rw [List.foldl_cons]
    exact ih _ (nodup_bucketGet_classifyStep g a hg)

/-- Claim C4: the collector assigns each URL to at most one bucket, by
the fixed-priority substring checks embodied in `classify`; unmatched
URLs land in no bucket; buckets are deduplicated by exact string; the
returned mapping holds exactly the platforms with a non-empty bucket;
and the concrete 5-URL example (2 Instagram, 1 TikTok, 2 unrecognized)
yields exactly the two keys `instagram` and `tiktok` of sizes 2 and 1. -/
theorem collector_partitioning :
    (∀ records u p, u ∈ bucketGet (groupOf records) p → classify u = some p) ∧
    (∀ records u p q, u ∈ bucketGet (groupOf records) p →
      u ∈ bucketGet (groupOf records) q → p = q) ∧
    (∀ records p, (bucketGet (groupOf records) p).Nodup) ∧
    (∀ records e, e ∈ get_all_recent_urls records → e.2 ≠ []) ∧
    (∀ records p, bucketGet (groupOf records) p ≠ [] →
      (platformKey p, bucketGet (groupOf records) p) ∈ get_all_recent_urls records) ∧
    (∀ u, strContains (lowerStr u) ("instagram") = true → classify u = some Platform.instagram) ∧
    (∀ u, strContains (lowerStr u) ("instagram") = false →
      strContains (lowerStr u) ("tiktok") = true → classify u = some Platform.tiktok) ∧
    get_all_recent_urls
      [("https://instagram.com/p/A1/"), ("https://instagram.com/p/B2/"),
       ("https://tiktok.com/@x/video/111"), ("https://example.com/a"),
       ("https://example.org/b")] =
      [(("instagram"), [("https://instagram.com/p/A1/"), ("https://instagram.com/p/B2/")]),
       (("tiktok"), [("https://tiktok.com/@x/video/111")])] := by
  have hmem : ∀ records u p, u ∈ bucketGet (groupOf records) p → classify u = some p := by
    intro records u p h
    rcases mem_bucket_foldl records emptyGrouped u p h with h2 | h2
    · rw [bucketGet_empty] at h2
      cases h2
    · exact h2
  refine ⟨hmem, ?_, ?_, ?_, ?_, ?_, ?_, by decide⟩
  · intro records u p q hp hq
    have h1 := hmem records u p hp
    have h2 := hmem records u q hq
    rw [h1] at h2
    exact Option.some.inj h2
  · intro records p
    refine nodup_bucket_foldl records emptyGrouped ?_ p
    intro q
    rw [bucketGet_empty]
    exact List.nodup_nil
  · intro records e he
    unfold get_all_recent_urls at he
    by_cases hr : records = []
    · rw [if_pos hr] at he
      cases he
    · rw [if_neg hr] at he
      rcases List.mem_filter.mp he with ⟨hmem2, hb⟩
      intro hnil
      rw [hnil] at hb
      simp at hb
  · intro records p hne
    unfold get_all_recent_urls
    by_cases hr : records = []
    · exfalso
      apply hne
      rw [hr]
      show bucketGet (groupOf []) p = []
      exact bucketGet_empty p
    · rw [if_neg hr]
      apply List.mem_filter.mpr
      constructor
      · cases p <;> simp [platformKey, bucketGet]
      · cases hb : bucketGet (groupOf records) p with
        | nil => exact absurd hb hne
        | cons x xs => simp [hb]
  · intro u h
    simp [classify, h]
  · intro u h1 h2
    simp [classify, h1, h2]

/-- Claim C4 witness: the bucket-membership clause applied at a concrete
record set and URL. -/
theorem collector_partitioning_witness :
    classify ("https://instagram.com/p/A1/") = some Platform.instagram :=
  collector_partitioning.1 [("https://instagram.com/p/A1/")]
    ("https://instagram.com/p/A1/") Platform.instagram (by decide)

/-! ## Dispatcher payload analysis (for claim C5) -/

lemma vkQueryIds_eq_filterMap (urls : List String) :
    vkQueryIds urls = urls.filterMap
      (fun u =>
        match extract_video_id (some u) with
        | none => none
        | some v => if v = "" then none else some v) := by
  have aux : ∀ (l : List String) (acc : List String),
      l.foldl
        (fun acc u =>
          match extract_video_id (some u) with
          | none => acc
          | some v => if v = "" then acc else acc ++ [v])
        acc =
      acc ++ l.filterMap
        (fun u =>
          match extract_video_id (some u) with
          | none => none
          | some v => if v = "" then none else some v) := by
    intro l
    induction l with
    | nil =>
      intro acc
      simp
    | cons a t ih =>
      intro acc
      rw [List.foldl_cons, List.filterMap_cons]
      cases hv : extract_video_id (some a) with
      | none => simp [hv, ih]
      | some v =>
        by_cases h : v = ""
        · simp [hv, h, ih]
        · simp [hv, h, ih]
  unfold vkQueryIds
  rw [aux urls []]
  simp

/-- Claim C5: the per-platform payload shapes — for `tiktok` the payload
is `{postURLs: urls, resultsPerPage: count(urls), shouldDownloadVideos:
false, shouldDownloadCovers: false}`; for `vk` the extractor is applied
to each URL first with non-truthy results dropped, and the payload is
`{query: ids, search_mode: "video", limit: count(ids), hd: false,
is_online: false, with_photo: false, dev_dataset_clear: false,
dev_no_strip: false}`. -/
theorem dispatcher_payload_shapes (urls : List String) (h : urls ≠ []) :
    build_actor_input ("tiktok") urls =
      ActorInput.tiktokInput urls urls.length false false ∧
    build_actor_input ("vk") urls =
      ActorInput.vkInput (vkQueryIds urls) ("video") (vkQueryIds urls).length
        false false false false false ∧
    vkQueryIds urls = urls.filterMap
      (fun u =>
        match extract_video_id (some u) with
        | none => none
        | some v => if v = "" then none else some v) :=
  ⟨rfl, rfl, vkQueryIds_eq_filterMap urls⟩

/-- Claim C5 witness: the tiktok payload built for three concrete URLs
has `resultsPerPage = 3` and the three URLs as `postURLs`. -/
theorem dispatcher_payload_shapes_witness :
    build_actor_input ("tiktok") [("a"), ("b"), ("c")] =
      ActorInput.tiktokInput [("a"), ("b"), ("c")] 3 false false :=
  (dispatcher_payload_shapes [("a"), ("b"), ("c")] (by decide)).1

/-- Claim C8: the likes counter is probed in the order nested
`{count}`-object, flat `likes`, `likesCount`, `diggCount`, default 0;
the views counter in the order `views`, `videoPlayCount`, `viewCount`,
`playCount`, default 0; with the three documented concrete examples. -/
theorem likes_views_probe_order :
    (∀ item c, item.likes = some (LikesField.asObj c) → extractLikes item = c.getD 0) ∧
    (∀ item n, item.likes = some (LikesField.asInt n) → extractLikes item = n) ∧
    (∀ item n, item.likes = none → item.likesCount = some n → extractLikes item = n) ∧
    (∀ item n, item.likes = none → item.likesCount = none → item.diggCount = some n →
      extractLikes item = n) ∧
    (∀ item, item.likes = none → item.likesCount = none → item.diggCount = none →
      extractLikes item = 0) ∧
    (∀ item n, item.views = some n → extractViews item = n) ∧
    (∀ item n, item.views = none → item.videoPlayCount = some n → extractViews item = n) ∧
    (∀ item n, item.views = none → item.videoPlayCount = none → item.viewCount = some n →
      extractViews item = n) ∧
    (∀ item n, item.views = none → item.videoPlayCount = none → item.viewCount = none →
      item.playCount = some n → extractViews item = n) ∧
    (∀ item, item.views = none → item.videoPlayCount = none → item.viewCount = none →
      item.playCount = none → extractViews item = 0) ∧
    extractLikes { emptyItem with likes := some (LikesField.asObj (some 42)) } = 42 ∧
    extractLikes { emptyItem with diggCount := some 7 } = 7 ∧
    extractLikes emptyItem = 0 := by
  refine ⟨?_, ?_, ?_, ?_, ?_, ?_, ?_, ?_, ?_, ?_, rfl, rfl, rfl⟩
  · intro item c h
    simp [extractLikes, h]
  · intro item n h
    simp [extractLikes, h]
  · intro item n h1 h2
    simp [extractLikes, h1, h2]
  · intro item n h1 h2 h3
    simp [extractLikes, h1, h2, h3]
  · intro item h1 h2 h3
    simp [extractLikes, h1, h2, h3]
  · intro item n h
    simp [extractViews, h]
  · intro item n h1 h2
    simp [extractViews, h1, h2]
  · intro item n h1 h2 h3
    simp [extractViews, h1, h2, h3]
  · intro item n h1 h2 h3 h4
    simp [extractViews, h1, h2, h3, h4]
  · intro item h1 h2 h3 h4
    simp [extractViews, h1, h2, h3, h4]

/-- Claim C8 witness: the nested-count clause applied at the concrete
item with `likes = {count: 42}`. -/
theorem likes_views_probe_order_witness :
    extractLikes { emptyItem with likes := some (LikesField.asObj (some 42)) } = 42 :=
  likes_views_probe_order.1 { emptyItem with likes := some (LikesField.asObj (some 42)) }
    (some 42) rfl
